import Mathlib

/-!
Verification development for a Go SDK that drives an external CLI agent
process over newline-delimited JSON.  The definitions below are a shallow
embedding of the SDK's query handler (query_handler.go), subprocess
transport, in-process MCP tool server (mcp.go), permission machinery
(permission.go) and the session facades (claude.go, client.go).
Go `map[string]any` values are modelled as association lists of JSON
values; Go goroutine interleavings are modelled by passing the resolving
event explicitly; machine floats are modelled by rationals.
-/

set_option linter.unusedVariables false

/-! ## JSON value model -/

/-- A decoded JSON value (`any` after `encoding/json` unmarshalling). -/
inductive JVal where
  | jnull : JVal
  | jbool : Bool → JVal
  | jnum : Rat → JVal
  | jstr : String → JVal
  | jarr : List JVal → JVal
  | jobj : List (String × JVal) → JVal

/-- A decoded JSON object (`map[string]any`), as an association list. -/
abbrev JObj := List (String × JVal)

/-- Lookup in an association list keyed by strings (first match wins;
`astore` keeps keys unique so this models Go map indexing). -/
def alookup {α : Type} (k : String) : List (String × α) → Option α
  | [] => none
  | (k', v) :: rest => if k' = k then some v else alookup k rest

/-- Remove a key from an association list (`delete` on a Go map). -/
def aerase {α : Type} (k : String) (l : List (String × α)) : List (String × α) :=
  l.filter (fun p => p.1 != k)

/-- Store a key in an association list (`m[k] = v` on a Go map). -/
def astore {α : Type} (k : String) (v : α) (l : List (String × α)) :
    List (String × α) :=
  (k, v) :: aerase k l

/-- `m[k]` on a decoded JSON object. -/
def jget (m : JObj) (k : String) : Option JVal := alookup k m

/-- The Go type assertion `m[k].(string)`: the string value if the key holds
one, the zero value `""` otherwise. -/
def getStr (m : JObj) (k : String) : String :=
  match jget m k with
  | some (.jstr s) => s
  | _ => ""

/-- The Go type assertion `m[k].(map[string]any)`: `none` models a `nil`
result (missing key or non-object value). -/
def getObjOpt (m : JObj) (k : String) : Option JObj :=
  match jget m k with
  | some (.jobj o) => some o
  | _ => none

/-- The Go type assertion `m[k].(bool)` with its `ok` flag. -/
def getBoolOpt (m : JObj) (k : String) : Option Bool :=
  match jget m k with
  | some (.jbool b) => some b
  | _ => none

/-- The Go type assertion `m[k].([]any)` with its `ok` flag. -/
def getArrOpt (m : JObj) (k : String) : Option (List JVal) :=
  match jget m k with
  | some (.jarr xs) => some xs
  | _ => none

/-- A Go `any` slot written into a response map: `nil` marshals to JSON
null. -/
def jnullify (o : Option JVal) : JVal := o.getD .jnull

/-! ## Tool server (mcp.go) -/

/-- `MCPContent`: one content item of an MCP tool result. -/
structure MCPContent where
  ctype : String
  text : String
  data : String
  mimeType : String

/-- `MCPToolResult`: the result returned by an MCP tool handler. -/
structure MCPToolResult where
  content : List MCPContent
  isError : Bool

/-- `SdkMcpTool`: an in-process tool definition.  The handler is the host
callback; its Go `(MCPToolResult, error)` pair is an `Except`. -/
structure SdkMcpTool where
  name : String
  description : String
  inputSchema : Option JObj
  handler : JObj → Except String MCPToolResult
  annots : Option JObj

/-- `McpServer`: an in-process MCP server. -/
structure McpServer where
  name : String
  version : String
  tools : List SdkMcpTool

/-- The `toolMap` built by `CreateSdkMcpServer`: later tools with the same
name overwrite earlier ones, as with a Go map. -/
def McpServer.toolMap (s : McpServer) : List (String × SdkMcpTool) :=
  s.tools.foldl (fun m t => astore t.name t m) []

/-- `McpServer.HandleInitialize`. -/
def McpServer.handleInitialize (s : McpServer) (id : Option JVal) : JObj :=
  [("jsonrpc", .jstr "2.0"), ("id", jnullify id),
   ("result", .jobj
     [("protocolVersion", .jstr "2024-11-05"),
      ("capabilities", .jobj [("tools", .jobj [])]),
      ("serverInfo", .jobj
        [("name", .jstr s.name), ("version", .jstr s.version)])])]

/-- The advertisement of one tool inside `HandleListTools`. -/
def toolListEntry (t : SdkMcpTool) : JVal :=
  .jobj ([("name", .jstr t.name),
          ("description", .jstr t.description),
          ("inputSchema", .jobj (t.inputSchema.getD
            [("type", .jstr "object"), ("properties", .jobj [])]))]
         ++ (match t.annots with
             | some a => [("annotations", .jobj a)]
             | none => []))

/-- `McpServer.HandleListTools`. -/
def McpServer.handleListTools (s : McpServer) (id : Option JVal) : JObj :=
  [("jsonrpc", .jstr "2.0"), ("id", jnullify id),
   ("result", .jobj [("tools", .jarr (s.tools.map toolListEntry))])]

/-- The serialization of one MCP content item in `HandleCallTool`. -/
def mcpContentToJson (item : MCPContent) : JVal :=
  .jobj ([("type", .jstr item.ctype)]
         ++ (if item.ctype = "text" then [("text", .jstr item.text)]
             else if item.ctype = "image" then
               [("data", .jstr item.data), ("mimeType", .jstr item.mimeType)]
             else []))

/-- `McpServer.HandleCallTool`. -/
def McpServer.handleCallTool (s : McpServer) (id : Option JVal)
    (name : String) (arguments : JObj) : JObj :=
  match alookup name s.toolMap with
  | none =>
    [("jsonrpc", .jstr "2.0"), ("id", jnullify id),
     ("error", .jobj
       [("code", .jnum (-32601)),
        ("message", .jstr ("Tool '" ++ name ++ "' not found"))])]
  | some tool =>
    match tool.handler arguments with
    | .error e =>
      [("jsonrpc", .jstr "2.0"), ("id", jnullify id),
       ("error", .jobj [("code", .jnum (-32603)), ("message", .jstr e)])]
    | .ok result =>
      [("jsonrpc", .jstr "2.0"), ("id", jnullify id),
       ("result", .jobj
         ([("content", .jarr (result.content.map mcpContentToJson))]
          ++ (if result.isError then [("is_error", .jbool true)] else [])))]

/-- `McpServer.HandleRequest`: dispatch a JSON-RPC request map. -/
def McpServer.handleRequest (s : McpServer) (message : JObj) : JObj :=
  let method := getStr message "method"
  let idv := jget message "id"
  let params := (getObjOpt message "params").getD []
  if method = "initialize" then s.handleInitialize idv
  else if method = "tools/list" then s.handleListTools idv
  else if method = "tools/call" then
    s.handleCallTool idv (getStr params "name")
      ((getObjOpt params "arguments").getD [])
  else if method = "notifications/initialized" then
    [("jsonrpc", .jstr "2.0"), ("result", .jobj [])]
  else
    [("jsonrpc", .jstr "2.0"), ("id", jnullify idv),
     ("error", .jobj
       [("code", .jnum (-32601)),
        ("message", .jstr ("Method '" ++ method ++ "' not found"))])]

/-! ## Permissions (permission.go) -/

/-- `PermissionRuleValue`. -/
structure PermissionRuleValue where
  toolName : String
  ruleContent : String

/-- `PermissionUpdate` (typed enum fields are Go string types; the zero
value is the empty string). -/
structure PermissionUpdate where
  ptype : String
  rules : List PermissionRuleValue
  behavior : String
  mode : String
  directories : List String
  destination : String

/-- `PermissionUpdate.ToDict`: the wire dictionary for a permission
update. -/
def PermissionUpdate.toDict (p : PermissionUpdate) : JObj :=
  [("type", .jstr p.ptype)]
  ++ (if p.destination ≠ "" then [("destination", .jstr p.destination)] else [])
  ++ (if p.ptype = "addRules" ∨ p.ptype = "replaceRules" ∨ p.ptype = "removeRules" then
        (if p.rules.length > 0 then
          [("rules", .jarr (p.rules.map (fun rule =>
            .jobj [("toolName", .jstr rule.toolName),
                   ("ruleContent", .jstr rule.ruleContent)])))]
         else [])
        ++ (if p.behavior ≠ "" then [("behavior", .jstr p.behavior)] else [])
      else if p.ptype = "setMode" then
        (if p.mode ≠ "" then [("mode", .jstr p.mode)] else [])
      else if p.ptype = "addDirectories" ∨ p.ptype = "removeDirectories" then
        (if p.directories.length > 0 then
          [("directories", .jarr (p.directories.map .jstr))]
         else [])
      else [])

/-- `parsePermissionUpdate`: convert a raw map to a `PermissionUpdate`. -/
def parsePermissionUpdate (m : JObj) : PermissionUpdate :=
  { ptype := getStr m "type"
    behavior := getStr m "behavior"
    mode := getStr m "mode"
    destination := getStr m "destination"
    directories :=
      match getArrOpt m "directories" with
      | some v => v.filterMap (fun d =>
          match d with
          | .jstr s => some s
          | _ => none)
      | none => []
    rules :=
      match getArrOpt m "rules" with
      | some v => v.filterMap (fun raw =>
          match raw with
          | .jobj rm => some { toolName := getStr rm "toolName"
                               ruleContent := getStr rm "ruleContent" }
          | _ => none)
      | none => [] }

/-- `PermissionResult`: the sealed interface with its two implementations
`PermissionResultAllow` and `PermissionResultDeny`. -/
inductive PermissionResult where
  | allow : Option JObj → Option (List PermissionUpdate) → PermissionResult
  | deny : String → Bool → PermissionResult

/-- `CanUseToolFunc`.  The Go `(PermissionResult, error)` pair is an
`Except`; the Go context argument is dropped; the permission context is
passed as its suggestions list. -/
abbrev CanUseToolFn :=
  String → JObj → List PermissionUpdate → Except String PermissionResult

/-- The `permission_suggestions` of an inbound `can_use_tool` request,
parsed as permission updates (non-object entries are skipped). -/
def parsePermissionSuggestions (request : JObj) : List PermissionUpdate :=
  match getArrOpt request "permission_suggestions" with
  | some rawSuggestions => rawSuggestions.filterMap (fun raw =>
      match raw with
      | .jobj m => some (parsePermissionUpdate m)
      | _ => none)
  | none => []

/-- `queryHandler.handleCanUseTool`: dispatch an inbound `can_use_tool`
control request to the host permission callback and shape its reply. -/
def handleCanUseTool (canUseTool : Option CanUseToolFn) (request : JObj) :
    Except String JObj :=
  match canUseTool with
  | none => .error "canUseTool callback is not provided"
  | some cb =>
    let toolName := getStr request "tool_name"
    let input := (getObjOpt request "input").getD []
    let suggestions := parsePermissionSuggestions request
    match cb toolName input suggestions with
    | .error e => .error e
    | .ok (.allow updatedInput updatedPermissions) =>
      .ok ([("behavior", .jstr "allow"),
            ("updatedInput", .jobj (updatedInput.getD input))]
           ++ (match updatedPermissions with
               | some perms =>
                 [("updatedPermissions",
                   .jarr (perms.map (fun p => .jobj p.toDict)))]
               | none => []))
    | .ok (.deny message interrupt) =>
      .ok ([("behavior", .jstr "deny"), ("message", .jstr message)]
           ++ (if interrupt then [("interrupt", .jbool true)] else []))

/-! ## Hooks (agent hook types and query_handler.go hook dispatch) -/

/-- `HookInput`: the parsed input record handed to a hook callback. -/
structure HookInput where
  sessionID : String
  transcriptPath : String
  cwd : String
  permissionMode : String
  hookEventName : String
  toolName : String
  toolInput : Option JObj
  toolUseID : String
  toolResponse : Option JVal
  errorMsg : String
  isInterrupt : Option Bool
  prompt : String
  stopHookActive : Bool
  agentID : String
  agentTranscriptPath : String
  agentType : String
  trigger : String
  customInstructions : String
  notificationMessage : String
  title : String
  notificationType : String
  permissionSuggestions : Option (List JVal)

/-- `parseHookInput`: convert a raw map to a `HookInput` (each field keeps
its Go zero value when the key is absent or has the wrong type). -/
def parseHookInput (m : JObj) : HookInput :=
  { sessionID := getStr m "session_id"
    transcriptPath := getStr m "transcript_path"
    cwd := getStr m "cwd"
    permissionMode := getStr m "permission_mode"
    hookEventName := getStr m "hook_event_name"
    toolName := getStr m "tool_name"
    toolInput := getObjOpt m "tool_input"
    toolUseID := getStr m "tool_use_id"
    toolResponse :=
      match jget m "tool_response" with
      | some .jnull => none
      | some v => some v
      | none => none
    errorMsg := getStr m "error"
    isInterrupt := getBoolOpt m "is_interrupt"
    prompt := getStr m "prompt"
    stopHookActive := (getBoolOpt m "stop_hook_active").getD false
    agentID := getStr m "agent_id"
    agentTranscriptPath := getStr m "agent_transcript_path"
    agentType := getStr m "agent_type"
    trigger := getStr m "trigger"
    customInstructions := getStr m "custom_instructions"
    notificationMessage := getStr m "message"
    title := getStr m "title"
    notificationType := getStr m "notification_type"
    permissionSuggestions := getArrOpt m "permission_suggestions" }

/-- The zero value of `HookInput` (a `var hookInput HookInput`
declaration). -/
def emptyHookInput : HookInput :=
  { sessionID := "", transcriptPath := "", cwd := "", permissionMode := ""
    hookEventName := "", toolName := "", toolInput := none, toolUseID := ""
    toolResponse := none, errorMsg := "", isInterrupt := none, prompt := ""
    stopHookActive := false, agentID := "", agentTranscriptPath := ""
    agentType := "", trigger := "", customInstructions := ""
    notificationMessage := "", title := "", notificationType := ""
    permissionSuggestions := none }

/-- `HookSpecificOutput`. -/
structure HookSpecificOutput where
  hookEventName : String
  permissionDecision : String
  permissionDecisionReason : String
  updatedInput : Option JObj
  updatedMCPToolOutput : Option JVal
  additionalContext : String
  decision : Option JObj

/-- `HookJSONOutput`: the host hook callback's structured output. -/
structure HookJSONOutput where
  async : Option Bool
  asyncTimeout : Option Int
  continueOut : Option Bool
  suppressOutput : Option Bool
  stopReason : String
  decision : String
  systemMessage : String
  reason : String
  hookSpecificOutput : Option HookSpecificOutput

/-- `convertHookOutputForCLI`: serialize a hook output; only set fields are
written. -/
def convertHookOutputForCLI (output : HookJSONOutput) : JObj :=
  (match output.async with
   | some b => [("async", JVal.jbool b)]
   | none => [])
  ++ (match output.asyncTimeout with
      | some n => [("asyncTimeout", JVal.jnum (n : Rat))]
      | none => [])
  ++ (match output.continueOut with
      | some b => [("continue", JVal.jbool b)]
      | none => [])
  ++ (match output.suppressOutput with
      | some b => [("suppressOutput", JVal.jbool b)]
      | none => [])
  ++ (if output.stopReason ≠ "" then [("stopReason", JVal.jstr output.stopReason)] else [])
  ++ (if output.decision ≠ "" then [("decision", JVal.jstr output.decision)] else [])
  ++ (if output.systemMessage ≠ "" then [("systemMessage", JVal.jstr output.systemMessage)] else [])
  ++ (if output.reason ≠ "" then [("reason", JVal.jstr output.reason)] else [])
  ++ (match output.hookSpecificOutput with
      | none => []
      | some hso =>
        [("hookSpecificOutput", JVal.jobj (
          [("hookEventName", JVal.jstr hso.hookEventName)]
          ++ (if hso.permissionDecision ≠ "" then
                [("permissionDecision", JVal.jstr hso.permissionDecision)] else [])
          ++ (if hso.permissionDecisionReason ≠ "" then
                [("permissionDecisionReason", JVal.jstr hso.permissionDecisionReason)] else [])
          ++ (match hso.updatedInput with
              | some u => [("updatedInput", JVal.jobj u)]
              | none => [])
          ++ (match hso.updatedMCPToolOutput with
              | some v => [("updatedMCPToolOutput", v)]
              | none => [])
          ++ (if hso.additionalContext ≠ "" then
                [("additionalContext", JVal.jstr hso.additionalContext)] else [])
          ++ (match hso.decision with
              | some d => [("decision", JVal.jobj d)]
              | none => [])))])

/-- `HookCallback`: a host hook callback (context dropped; the Go
`(*HookJSONOutput, error)` pair is an `Except` of an `Option`). -/
abbrev HookCb := HookInput → String → Except String (Option HookJSONOutput)

/-- `queryHandler.handleHookCallback`. -/
def handleHookCallback (hookCallbacks : List (String × HookCb))
    (request : JObj) : Except String JObj :=
  let callbackID := getStr request "callback_id"
  match alookup callbackID hookCallbacks with
  | none => .error ("no hook callback found for ID: " ++ callbackID)
  | some callback =>
    let hookInput :=
      match getObjOpt request "input" with
      | some rawInput => parseHookInput rawInput
      | none => emptyHookInput
    let toolUseID := getStr request "tool_use_id"
    match callback hookInput toolUseID with
    | .error e => .error e
    | .ok none => .ok []
    | .ok (some output) => .ok (convertHookOutputForCLI output)

/-- `queryHandler.handleMcpMessage`. -/
def handleMcpMessage (sdkMcpServers : List (String × McpServer))
    (request : JObj) : Except String JObj :=
  let serverName := getStr request "server_name"
  match getObjOpt request "message" with
  | none => .error "missing server_name or message for MCP request"
  | some message =>
    if serverName = "" then .error "missing server_name or message for MCP request"
    else
      match alookup serverName sdkMcpServers with
      | none =>
        .ok [("mcp_response", .jobj
          [("jsonrpc", .jstr "2.0"),
           ("id", jnullify (jget message "id")),
           ("error", .jobj
             [("code", .jnum (-32601)),
              ("message", .jstr ("Server '" ++ serverName ++ "' not found"))])])]
      | some server =>
        .ok [("mcp_response", .jobj (server.handleRequest message))]

/-! ## Inbound control-request dispatch (query_handler.go) -/

/-- The host-callback environment of a query handler: the permission
callback, the hook-callback registry and the in-process MCP servers. -/
structure DispatchEnv where
  canUseTool : Option CanUseToolFn
  hookCallbacks : List (String × HookCb)
  sdkMcpServers : List (String × McpServer)

/-- The error control response written for a failed inbound request. -/
def errorControlResponse (requestID : String) (e : String) : JObj :=
  [("type", .jstr "control_response"),
   ("response", .jobj
     [("subtype", .jstr "error"),
      ("request_id", .jstr requestID),
      ("error", .jstr e)])]

/-- The success control response written for a handled inbound request. -/
def successControlResponse (requestID : String) (responseData : JObj) : JObj :=
  [("type", .jstr "control_response"),
   ("response", .jobj
     [("subtype", .jstr "success"),
      ("request_id", .jstr requestID),
      ("response", .jobj responseData)])]

/-- `queryHandler.handleControlRequest`: dispatch one inbound
`control_request` envelope.  The returned value is the single
`control_response` written back to the transport; `none` means the
dispatcher returned without writing anything. -/
def handleControlRequest (env : DispatchEnv) (msg : JObj) : Option JObj :=
  let requestID := getStr msg "request_id"
  match getObjOpt msg "request" with
  | none => none
  | some request =>
    if requestID = "" then none
    else
      let subtype := getStr request "subtype"
      let result : Except String JObj :=
        if subtype = "can_use_tool" then handleCanUseTool env.canUseTool request
        else if subtype = "hook_callback" then
          handleHookCallback env.hookCallbacks request
        else if subtype = "mcp_message" then
          handleMcpMessage env.sdkMcpServers request
        else .error ("unsupported control request subtype: " ++ subtype)
      match result with
      | .error e => some (errorControlResponse requestID e)
      | .ok responseData => some (successControlResponse requestID responseData)

/-! ## Query handler state (query_handler.go) -/

/-- `pendingRequest`: a pending outbound control request.  `pdone` models
the closed state of the single-fire `done` channel. -/
structure Pend where
  perr : Option String
  presult : Option JObj
  pdone : Bool

/-- The mutable state of a `queryHandler`, with the conversation-message
channel (`delivered`) and the control responses written back to the
transport (`ctrlOut`) recorded as histories. -/
structure HState where
  pending : List (String × Pend)
  readErr : Option String
  closedFlag : Bool
  firstResult : Bool
  delivered : List JObj
  ctrlOut : List JObj
  counter : Nat
  initializeTimeout : Rat
  streamCloseTimeout : Rat

/-- `newQueryHandler`: the handler state at construction.  `initTimeout`
is `opts.InitializeTimeout`; `envMs` is the parsed value of
`CLAUDE_CODE_STREAM_CLOSE_TIMEOUT` in milliseconds (`none` when absent or
unparsable). -/
def newQueryHandlerState (initTimeout : Rat) (envMs : Option Rat) : HState :=
  { pending := []
    readErr := none
    closedFlag := false
    firstResult := false
    delivered := []
    ctrlOut := []
    counter := 0
    initializeTimeout := if initTimeout ≤ 0 then 60 else initTimeout
    streamCloseTimeout :=
      match envMs with
      | none => 60
      | some ms => ms / 1000 }

/-- `resolveInitializeTimeout` (client.go): the initialize timeout derived
from `CLAUDE_CODE_STREAM_CLOSE_TIMEOUT`, floor-clamped at 60 seconds. -/
def resolveInitializeTimeout (envMs : Option Rat) : Rat :=
  match envMs with
  | none => 60
  | some ms =>
    let timeoutSeconds := ms / 1000
    if timeoutSeconds < 60 then 60 else timeoutSeconds

/-- `queryHandler.setReadError`: write-once store of the terminal error. -/
def setReadError (s : HState) (e : String) : HState :=
  { s with readErr := some (s.readErr.getD e) }

/-- `queryHandler.failPendingRequests`: complete every pending request that
has no error yet with the given error and fire its done signal. -/
def failPendingRequests (e : String) (l : List (String × Pend)) :
    List (String × Pend) :=
  l.map (fun kp => (kp.1, { kp.2 with perr := some (kp.2.perr.getD e), pdone := true }))

/-- The synthetic conversation message pushed by
`queryHandler.pushErrorMessage`. -/
def errMessage (e : String) : JObj :=
  [("type", .jstr "error"), ("error", .jstr e)]

/-- The terminal transition of the reader: store the error, fail pending
requests, push the synthetic error message. -/
def terminalize (s : HState) (e : String) : HState :=
  { setReadError s e with
    pending := failPendingRequests e s.pending
    delivered := s.delivered ++ [errMessage e] }

/-- The `control_response` arm of the reader's switch: resolve the matching
pending request, recording the error string when `subtype` is `"error"`
and the whole response object otherwise. -/
def processControlResponse (s : HState) (msg : JObj) : HState :=
  match getObjOpt msg "response" with
  | none => s
  | some response =>
    let requestID := getStr response "request_id"
    if requestID = "" then s
    else
      match alookup requestID s.pending with
      | none => s
      | some pend =>
        let pend' :=
          if getStr response "subtype" = "error" then
            { pend with perr := some (getStr response "error"), pdone := true }
          else
            { pend with presult := some response, pdone := true }
        { s with pending := astore requestID pend' s.pending }

/-- One event observed by the reader's select loop. -/
inductive TEvent where
  | tmsg : JObj → TEvent
  | terr : String → TEvent
  | terrChanClosed : TEvent
  | tclosed : Option String → TEvent
  | tctx : String → TEvent

/-- Whether an envelope is a conversation message (not one of the three
control envelope types). -/
def isConvMsg (m : JObj) : Bool :=
  decide (getStr m "type" ≠ "control_request"
    ∧ getStr m "type" ≠ "control_response"
    ∧ getStr m "type" ≠ "control_cancel_request")

/-- `queryHandler.readMessages`: the reader loop, processing the interleaved
trace of transport events.  A terminal event ends the run (the channel
close that follows is implicit: `delivered` receives nothing further). -/
def readMessages (env : DispatchEnv) (s : HState) : List TEvent → HState
  | [] => s
  | ev :: rest =>
    match ev with
    | .tctx cause =>
      if s.closedFlag then s else terminalize s cause
    | .terr e => terminalize s e
    | .terrChanClosed => readMessages env s rest
    | .tclosed lastErr =>
      match lastErr with
      | some e => terminalize s e
      | none => s
    | .tmsg msg =>
      if s.closedFlag then s
      else
        let msgType := getStr msg "type"
        if msgType = "control_response" then
          readMessages env (processControlResponse s msg) rest
        else if msgType = "control_request" then
          let s' :=
            match handleControlRequest env msg with
            | some response => { s with ctrlOut := s.ctrlOut ++ [response] }
            | none => s
          readMessages env s' rest
        else if msgType = "control_cancel_request" then
          readMessages env s rest
        else
          readMessages env
            { s with
              firstResult := s.firstResult || (msgType == "result")
              delivered := s.delivered ++ [msg] }
            rest

/-! ## Outbound control requests (query_handler.go) -/

/-- The event that ends the three-way select wait in
`sendControlRequest`: a control response resolved the pending record
(carrying the error string when its subtype was `"error"`, the whole
response object otherwise), `failPendingRequests` resolved it with a
terminal error, the request timer fired, or the caller's context was
cancelled. -/
inductive WaitOutcome where
  | response : Option String → JObj → WaitOutcome
  | failed : String → WaitOutcome
  | timedOut : WaitOutcome
  | cancelled : String → WaitOutcome

/-- The request identifier generated for the next outbound control
request (`req_<counter>_<random hex>`). -/
def freshRequestId (s : HState) (rnd : String) : String :=
  "req_" ++ toString (s.counter + 1) ++ "_" ++ rnd

/-- `queryHandler.sendControlRequest`: pre-flight terminal check, pending
registration, write, three-way wait, and the deferred removal of the
pending record on every path.  `writeErr` is the transport `Write` result;
`wait` the event that ends the select. -/
def sendControlRequest (s : HState) (request : JObj) (rnd : String)
    (writeErr : Option String) (wait : WaitOutcome) :
    Except String JObj × HState :=
  match s.readErr with
  | some e => (.error e, s)
  | none =>
    let requestID := freshRequestId s rnd
    let s1 := { s with counter := s.counter + 1 }
    let s2 := { s1 with
      pending := astore requestID { perr := none, presult := none, pdone := false } s1.pending }
    match writeErr with
    | some e => (.error e, { s2 with pending := aerase requestID s2.pending })
    | none =>
      let res : Except String JObj :=
        match wait with
        | .response (some errMsg) _ => .error errMsg
        | .response none result => .ok ((getObjOpt result "response").getD [])
        | .failed e => .error e
        | .timedOut => .error ("control request timeout: " ++ getStr request "subtype")
        | .cancelled e => .error e
      (res, { s2 with pending := aerase requestID s2.pending })

/-- The five possible outcomes of an outbound control request. -/
inductive OutcomeKind where
  | success : OutcomeKind
  | errorReply : OutcomeKind
  | timeout : OutcomeKind
  | cancelledByCaller : OutcomeKind
  | handlerTerminal : OutcomeKind
deriving DecidableEq

/-- Classify the outcome of one `sendControlRequest` call from its
configuration: a stored terminal error, a failed write, and a pending
record failed by `failPendingRequests` are handler-terminal failures. -/
def classifyOutcome (readErr : Option String) (writeErr : Option String)
    (wait : WaitOutcome) : OutcomeKind :=
  match readErr with
  | some _ => .handlerTerminal
  | none =>
    match writeErr with
    | some _ => .handlerTerminal
    | none =>
      match wait with
      | .response (some _) _ => .errorReply
      | .response none _ => .success
      | .failed _ => .handlerTerminal
      | .timedOut => .timeout
      | .cancelled _ => .cancelledByCaller

/-- Whether an `Except` result is a success (`err == nil` in Go). -/
def exceptOk {ε α : Type} : Except ε α → Bool
  | .ok _ => true
  | .error _ => false

/-! ## Input-stream termination (query_handler.go streamInput) -/

/-- The first of the three signals that ends the stream-close wait. -/
inductive CloseWake where
  | firstResult : CloseWake
  | timerFired : CloseWake
  | ctxDone : CloseWake

/-- One observable action of `queryHandler.streamInput`. -/
inductive StreamAct where
  | wrote : JObj → StreamAct
  | waited : CloseWake → StreamAct
  | calledEndInput : StreamAct

/-- The closing tail of `streamInput` once its input channel is observed
closed: with any in-process tool server or any hook registered it first
waits for one of the three wake signals, then calls `EndInput`. -/
def streamInputCloseActs (numSdkMcpServers numHooks : Nat)
    (wake : CloseWake) : List StreamAct :=
  if numSdkMcpServers > 0 ∨ numHooks > 0 then
    [.waited wake, .calledEndInput]
  else
    [.calledEndInput]

/-- `queryHandler.streamInput`: forward every input message to the
transport, then coordinate end-of-input. -/
def streamInput (numSdkMcpServers numHooks : Nat) (wake : CloseWake) :
    List JObj → List StreamAct
  | [] => streamInputCloseActs numSdkMcpServers numHooks wake
  | msg :: rest => .wrote msg :: streamInput numSdkMcpServers numHooks wake rest

/-! ## Handler close and transport EndInput/Close (query_handler.go) -/

/-- The state of the subprocess transport relevant to shutdown:
`stdinOpen` models `t.stdin != nil`. -/
structure TState where
  ready : Bool
  stdinOpen : Bool
  cancelledCtx : Bool
  processKilled : Bool

/-- An observable side effect of transport shutdown operations. -/
inductive TAct where
  | closedStdin : TAct

/-- `subprocessTransport.EndInput`: close stdin the first time, a nil-error
no-op afterwards. -/
def endInput (t : TState) : TState × Option String × List TAct :=
  if t.stdinOpen then
    ({ t with stdinOpen := false }, none, [.closedStdin])
  else
    (t, none, [])

/-- `subprocessTransport.Close`: mark not ready, close stdin if open,
cancel the reader, kill and reap the child. -/
def transportClose (t : TState) : TState × List TAct :=
  if t.stdinOpen then
    ({ ready := false, stdinOpen := false, cancelledCtx := true, processKilled := true },
     [.closedStdin])
  else
    ({ ready := false, stdinOpen := false, cancelledCtx := true, processKilled := true },
     [])

/-- `queryHandler.close`: mark closed, fail all pending requests with
"query handler closed", cancel and join the reader (which, seeing the
closed flag, changes nothing), close the transport. -/
def queryHandlerClose (s : HState) (t : TState) : (HState × TState) × List TAct :=
  let s' := { s with
    closedFlag := true
    pending := failPendingRequests "query handler closed" s.pending }
  let ct := transportClose t
  ((s', ct.1), ct.2)

/-! ## Session facades (claude.go runQuery, client.go Connect) -/

/-- One observable step of facade start-up before the message loop. -/
inductive StartStep where
  | errEmit : String → StartStep
  | launch : String → StartStep

/-- The permission-configuration prefix of `runQuery` (claude.go): the
checks run before any subprocess is created.  `launch p` records that the
subprocess is started with `PermissionPromptToolName = p`. -/
def runQueryStart (hasPrompt : Bool) (hasCanUseTool : Bool)
    (permissionPromptToolName : String) : List StartStep :=
  if hasCanUseTool then
    if hasPrompt then
      [.errEmit "can_use_tool callback requires streaming input; use QueryStream instead of Query"]
    else if permissionPromptToolName ≠ "" then
      [.errEmit "can_use_tool callback cannot be used with permission_prompt_tool_name"]
    else
      [.launch "stdio"]
  else
    [.launch permissionPromptToolName]

/-- The permission-configuration prefix of `ClaudeClient.Connect`
(client.go). -/
def connectStart (hasCanUseTool : Bool)
    (permissionPromptToolName : String) : List StartStep :=
  if hasCanUseTool then
    if permissionPromptToolName ≠ "" then
      [.errEmit "can_use_tool callback cannot be used with permission_prompt_tool_name"]
    else
      [.launch "stdio"]
  else
    [.launch permissionPromptToolName]

/-! ## Association-list lemmas -/

theorem alookup_cons {α : Type} (k k' : String) (v : α) (l : List (String × α)) :
    alookup k ((k', v) :: l) = if k' = k then some v else alookup k l := rfl

theorem aerase_cons {α : Type} (k k' : String) (v : α) (l : List (String × α)) :
    aerase k ((k', v) :: l)
      = if k' = k then aerase k l else (k', v) :: aerase k l := by
  by_cases h : k' = k <;> simp [aerase, List.filter_cons, h]

theorem alookup_aerase_self {α : Type} (k : String) (l : List (String × α)) :
    alookup k (aerase k l) = none := by
  induction l with
  | nil => rfl
  | cons p rest ih =>
    obtain ⟨k', v⟩ := p
    by_cases h : k' = k
    · rw [aerase_cons, if_pos h]; exact ih
    · rw [aerase_cons, if_neg h, alookup_cons, if_neg h]; exact ih

theorem alookup_aerase_ne {α : Type} (k k' : String) (l : List (String × α))
    (h : k' ≠ k) : alookup k' (aerase k l) = alookup k' l := by
  induction l with
  | nil => rfl
  | cons p rest ih =>
    obtain ⟨k'', v⟩ := p
    by_cases h2 : k'' = k
    · rw [aerase_cons, if_pos h2, alookup_cons, if_neg (h2 ▸ fun hh => h (hh ▸ rfl))]
      exact ih
    · rw [aerase_cons, if_neg h2, alookup_cons, alookup_cons]
      by_cases h3 : k'' = k' <;> simp [h3, ih]

theorem alookup_astore_self {α : Type} (k : String) (v : α) (l : List (String × α)) :
    alookup k (astore k v l) = some v := by
  simp [astore, alookup_cons]

theorem alookup_astore_ne {α : Type} (k k' : String) (v : α) (l : List (String × α))
    (h : k' ≠ k) : alookup k' (astore k v l) = alookup k' l := by
  rw [astore, alookup_cons, if_neg (fun hh => h hh.symm)]
  exact alookup_aerase_ne k k' l h

theorem alookup_failPendingRequests (e : String) (l : List (String × Pend)) (k : String) :
    alookup k (failPendingRequests e l)
      = (alookup k l).map (fun p => { p with perr := some (p.perr.getD e), pdone := true }) := by
  induction l with
  | nil => rfl
  | cons p rest ih =>
    obtain ⟨k', v⟩ := p
    by_cases h : k' = k
    · simp [failPendingRequests, alookup_cons, h]
    · simp only [failPendingRequests, List.map_cons, alookup_cons, if_neg h]
      simpa [failPendingRequests] using ih

theorem failPendingRequests_idem (e : String) (l : List (String × Pend)) :
    failPendingRequests e (failPendingRequests e l) = failPendingRequests e l := by
  induction l with
  | nil => rfl
  | cons p rest ih =>
    obtain ⟨k', v⟩ := p
    simp [failPendingRequests] at ih ⊢

/-! ## Claim C7: initialize timeout clamping -/

/-- C7: the initialize timeout computed from
`CLAUDE_CODE_STREAM_CLOSE_TIMEOUT` is floor-clamped at 60 seconds: a value
parsing to `ms` milliseconds yields `max 60 (ms / 1000)` seconds, an absent
or unparsable value yields exactly 60 seconds, and the handler constructed
from this value uses it unchanged as the initialize-request timeout. -/
theorem initialize_timeout_floor_clamped :
    (∀ ms : Rat, resolveInitializeTimeout (some ms) = max 60 (ms / 1000))
    ∧ resolveInitializeTimeout none = 60
    ∧ (∀ envMs : Option Rat,
        (newQueryHandlerState (resolveInitializeTimeout envMs) envMs).initializeTimeout
          = resolveInitializeTimeout envMs) := by
  refine ⟨?_, rfl, ?_⟩
  · intro ms
    simp only [resolveInitializeTimeout]
    rcases lt_or_le (ms / 1000) 60 with h | h
    · rw [if_pos h, max_eq_left h.le]
    · rw [if_neg (not_lt.mpr h), max_eq_right h]
  · intro envMs
    have hpos : (0 : Rat) < resolveInitializeTimeout envMs := by
      cases envMs with
      | none => norm_num [resolveInitializeTimeout]
      | some ms =>
        simp only [resolveInitializeTimeout]
        split
        · norm_num
        · rename_i h
          have h2 : (60 : Rat) ≤ ms / 1000 := not_lt.mp h
          linarith
    simp [newQueryHandlerState, not_le.mpr hpos]

/-! ## Claim C8: close and EndInput idempotence -/

/-- C8: closing the query handler twice leaves the handler and transport
in the same state as closing once (the second close performs no stdin
close), and calling the transport's `EndInput` after `Close` or after a
previous `EndInput` is a nil-returning no-op that changes no field and
closes nothing. -/
theorem close_twice_and_endInput_idempotent :
    (∀ (s : HState) (t : TState),
        queryHandlerClose (queryHandlerClose s t).1.1 (queryHandlerClose s t).1.2
          = ((queryHandlerClose s t).1, []))
    ∧ (∀ t : TState, endInput (endInput t).1 = ((endInput t).1, none, []))
    ∧ (∀ t : TState, endInput (transportClose t).1 = ((transportClose t).1, none, [])) := by
  refine ⟨?_, ?_, ?_⟩
  · intro s t
    cases hso : t.stdinOpen <;>
      simp [queryHandlerClose, transportClose, hso, failPendingRequests_idem]
  · intro t
    cases hso : t.stdinOpen <;> simp [endInput, hso]
  · intro t
    cases hso : t.stdinOpen <;> simp [endInput, transportClose, hso]

/-! ## Claim C5: end-of-input coordination -/

theorem streamInput_writes_then_closes (numSdkMcpServers numHooks : Nat)
    (wake : CloseWake) (msgs : List JObj) :
    streamInput numSdkMcpServers numHooks wake msgs
      = msgs.map .wrote ++ streamInputCloseActs numSdkMcpServers numHooks wake := by
  induction msgs with
  | nil => simp [streamInput]
  | cons m rest ih => simp [streamInput, ih]

/-- C5: when the input channel closes, `streamInput` calls `EndInput`
immediately exactly when no in-process tool server and no hook is
registered; with at least one of either it first waits for the first of
the first-result latch, the stream-close timeout, or reader-context
cancellation, and only then calls `EndInput`. -/
theorem endInput_deferred_iff_callbacks (numSdkMcpServers numHooks : Nat)
    (wake : CloseWake) (msgs : List JObj) :
    (numSdkMcpServers > 0 ∨ numHooks > 0 →
      streamInput numSdkMcpServers numHooks wake msgs
        = msgs.map .wrote ++ [.waited wake, .calledEndInput])
    ∧ (numSdkMcpServers = 0 → numHooks = 0 →
      streamInput numSdkMcpServers numHooks wake msgs
        = msgs.map .wrote ++ [.calledEndInput]) := by
  constructor
  · intro hc
    rw [streamInput_writes_then_closes, streamInputCloseActs, if_pos hc]
  · intro h1 h2
    rw [streamInput_writes_then_closes, streamInputCloseActs,
      if_neg (by simp [h1, h2])]

/-- Witness for C5: with one tool server registered the close is deferred
behind a wait; with neither servers nor hooks it is immediate. -/
theorem endInput_deferred_iff_callbacks_witness :
    streamInput 1 0 CloseWake.firstResult [] = [.waited .firstResult, .calledEndInput]
    ∧ streamInput 0 0 CloseWake.firstResult [] = [.calledEndInput] :=
  ⟨(endInput_deferred_iff_callbacks 1 0 .firstResult []).1 (Or.inl (by decide)),
   (endInput_deferred_iff_callbacks 0 0 .firstResult []).2 rfl rfl⟩

/-! ## Claim C10: permission callback vs permission prompt tool name -/

/-- C10 counterexample: in the one-shot facade with a string prompt,
supplying the permission callback together with a non-empty
`PermissionPromptToolName` does not emit the error named by the claim; the
callback is rejected first with the streaming-input error, which is a
different string. -/
theorem canUseTool_with_prompt_tool_name_counterexample :
    runQueryStart true true "approval_tool"
      = [.errEmit "can_use_tool callback requires streaming input; use QueryStream instead of Query"]
    ∧ "can_use_tool callback requires streaming input; use QueryStream instead of Query"
      ≠ "can_use_tool callback cannot be used with permission_prompt_tool_name" :=
  ⟨rfl, by decide⟩

/-- C10 (amended): supplying the permission callback together with a
non-empty `PermissionPromptToolName` fails before any subprocess launch in
both facades; `Connect` and the streaming one-shot query emit the
incompatibility error, while the string-prompt one-shot query rejects the
callback earlier with the streaming-input error; the callback supplied
alone silently sets the prompt tool name to "stdio". -/
theorem canUseTool_permission_prompt_config (p : String) (hp : p ≠ "") :
    connectStart true p
      = [.errEmit "can_use_tool callback cannot be used with permission_prompt_tool_name"]
    ∧ runQueryStart false true p
      = [.errEmit "can_use_tool callback cannot be used with permission_prompt_tool_name"]
    ∧ runQueryStart true true p
      = [.errEmit "can_use_tool callback requires streaming input; use QueryStream instead of Query"]
    ∧ connectStart true "" = [.launch "stdio"]
    ∧ runQueryStart false true "" = [.launch "stdio"] := by
  refine ⟨?_, ?_, rfl, rfl, rfl⟩
  · simp [connectStart, hp]
  · simp [runQueryStart, hp]

/-- Witness for C10 at a concrete non-empty prompt tool name. -/
theorem canUseTool_permission_prompt_config_witness :
    connectStart true "approval_tool"
      = [.errEmit "can_use_tool callback cannot be used with permission_prompt_tool_name"]
    ∧ runQueryStart false true "approval_tool"
      = [.errEmit "can_use_tool callback cannot be used with permission_prompt_tool_name"]
    ∧ runQueryStart true true "approval_tool"
      = [.errEmit "can_use_tool callback requires streaming input; use QueryStream instead of Query"]
    ∧ connectStart true "" = [.launch "stdio"]
    ∧ runQueryStart false true "" = [.launch "stdio"] :=
  canUseTool_permission_prompt_config "approval_tool" (by decide)

/-! ## Claim C6: tool-server response envelope shape -/

/-- A server with no tools, used to exhibit the notifications-id drop. -/
def c6Server : McpServer := { name := "calc", version := "1.0.0", tools := [] }

/-- A `notifications/initialized` request that carries an id. -/
def c6Request : JObj :=
  [("method", JVal.jstr "notifications/initialized"), ("id", JVal.jnum 5)]

/-- C6 counterexample: a `notifications/initialized` request carrying
`id = 5` receives a response with no `id` key at all, so the request's id
is not echoed. -/
theorem handleRequest_notifications_id_dropped :
    jget c6Request "id" = some (JVal.jnum 5)
    ∧ jget (McpServer.handleRequest c6Server c6Request) "id" = none :=
  ⟨rfl, rfl⟩

theorem handleCallTool_shape (s : McpServer) (idv : Option JVal)
    (nm : String) (args : JObj) :
    jget (s.handleCallTool idv nm args) "jsonrpc" = some (JVal.jstr "2.0")
    ∧ (jget (s.handleCallTool idv nm args) "result").isSome
        = !((jget (s.handleCallTool idv nm args) "error").isSome)
    ∧ jget (s.handleCallTool idv nm args) "id" = some (jnullify idv) := by
  cases h : alookup nm s.toolMap with
  | none =>
    simp only [McpServer.handleCallTool, h]
    exact ⟨rfl, rfl, rfl⟩
  | some tool =>
    cases h2 : tool.handler args with
    | error e =>
      simp only [McpServer.handleCallTool, h, h2]
      exact ⟨rfl, rfl, rfl⟩
    | ok result =>
      simp only [McpServer.handleCallTool, h, h2]
      exact ⟨rfl, rfl, rfl⟩

/-- C6 (amended): every tool-server response carries `jsonrpc = "2.0"` and
exactly one of `result` or `error`, and echoes the request's `id` (absent
id echoed as null) for every method except `notifications/initialized`,
whose response omits the `id` key even when the request has one. -/
theorem handleRequest_envelope_shape (s : McpServer) (message : JObj) :
    jget (s.handleRequest message) "jsonrpc" = some (JVal.jstr "2.0")
    ∧ (jget (s.handleRequest message) "result").isSome
        = !((jget (s.handleRequest message) "error").isSome)
    ∧ jget (s.handleRequest message) "id"
        = (if getStr message "method" = "notifications/initialized" then none
           else some (jnullify (jget message "id"))) := by
  simp only [McpServer.handleRequest]
  by_cases h1 : getStr message "method" = "initialize"
  · rw [if_pos h1]
    refine ⟨rfl, rfl, ?_⟩
    rw [if_neg (by rw [h1]; decide)]
    rfl
  · rw [if_neg h1]
    by_cases h2 : getStr message "method" = "tools/list"
    · rw [if_pos h2]
      refine ⟨rfl, rfl, ?_⟩
      rw [if_neg (by rw [h2]; decide)]
      rfl
    · rw [if_neg h2]
      by_cases h3 : getStr message "method" = "tools/call"
      · rw [if_pos h3]
        obtain ⟨ha, hb, hc⟩ := handleCallTool_shape s (jget message "id")
          (getStr ((getObjOpt message "params").getD []) "name")
          ((getObjOpt ((getObjOpt message "params").getD []) "arguments").getD [])
        refine ⟨ha, hb, ?_⟩
        rw [hc, if_neg (by rw [h3]; decide)]
      · rw [if_neg h3]
        by_cases h4 : getStr message "method" = "notifications/initialized"
        · rw [if_pos h4, if_pos h4]
          exact ⟨rfl, rfl, rfl⟩
        · rw [if_neg h4, if_neg h4]
          exact ⟨rfl, rfl, rfl⟩

/-! ## Claim C2: conversation messages are the filtered subsequence -/

theorem processControlResponse_delivered (s : HState) (m : JObj) :
    (processControlResponse s m).delivered = s.delivered := by
  simp only [processControlResponse]
  repeat' split
  all_goals rfl

theorem processControlResponse_closedFlag (s : HState) (m : JObj) :
    (processControlResponse s m).closedFlag = s.closedFlag := by
  simp only [processControlResponse]
  repeat' split
  all_goals rfl

/-- C2: with no terminal error, the objects the handler delivers on its
conversation-message channel are element for element, in order, the
subsequence of the inbound objects whose `type` is not one of
`control_request`, `control_response`, `control_cancel_request`. -/
theorem readMessages_delivers_conversation_subsequence (env : DispatchEnv)
    (msgs : List JObj) :
    ∀ s : HState, s.closedFlag = false →
      (readMessages env s (msgs.map .tmsg)).delivered
        = s.delivered ++ msgs.filter isConvMsg := by
  induction msgs with
  | nil => intro s hs; simp [readMessages]
  | cons m rest ih =>
    intro s hs
    rw [List.map_cons]
    simp only [readMessages]
    rw [if_neg (by simp [hs])]
    by_cases h1 : getStr m "type" = "control_response"
    · rw [if_pos h1]
      have hf : isConvMsg m = false := by simp only [isConvMsg, h1]; decide
      rw [ih _ (by rw [processControlResponse_closedFlag]; exact hs),
        processControlResponse_delivered]
      simp [List.filter_cons, hf]
    · rw [if_neg h1]
      by_cases h2 : getStr m "type" = "control_request"
      · rw [if_pos h2]
        have hf : isConvMsg m = false := by simp only [isConvMsg, h2]; decide
        cases hcr : handleControlRequest env m with
        | some response =>
          simp only [hcr]
          rw [ih { s with ctrlOut := s.ctrlOut ++ [response] } hs]
          simp [List.filter_cons, hf]
        | none =>
          simp only [hcr]
          rw [ih _ hs]
          simp [List.filter_cons, hf]
      · rw [if_neg h2]
        by_cases h3 : getStr m "type" = "control_cancel_request"
        · rw [if_pos h3]
          have hf : isConvMsg m = false := by simp only [isConvMsg, h3]; decide
          rw [ih _ hs]
          simp [List.filter_cons, hf]
        · rw [if_neg h3]
          have ht : isConvMsg m = true := by
            simp only [isConvMsg]
            rw [decide_eq_true_eq]
            exact ⟨h2, h1, h3⟩
          rw [ih { s with
            firstResult := s.firstResult || (getStr m "type" == "result")
            delivered := s.delivered ++ [m] } hs]
          simp [List.filter_cons, ht]

/-- Witness for C2: three inbound objects, one of which is a control
envelope, yield exactly the two conversation messages in order. -/
theorem readMessages_delivers_conversation_subsequence_witness :
    (readMessages ⟨none, [], []⟩ (newQueryHandlerState 60 none)
        ([[("type", JVal.jstr "assistant")],
          [("type", JVal.jstr "control_cancel_request")],
          [("type", JVal.jstr "result")]].map .tmsg)).delivered
      = [[("type", JVal.jstr "assistant")], [("type", JVal.jstr "result")]] :=
  (readMessages_delivers_conversation_subsequence ⟨none, [], []⟩
    [[("type", JVal.jstr "assistant")],
     [("type", JVal.jstr "control_cancel_request")],
     [("type", JVal.jstr "result")]]
    (newQueryHandlerState 60 none) rfl).trans rfl

/-! ## Claim C3: terminal-error propagation -/

/-- The handler state after delivering a block of conversation messages:
they are appended to the channel history and the first-result latch
absorbs any `result`-typed message. -/
def deliverConv (s : HState) (msgs : List JObj) : HState :=
  { s with
    delivered := s.delivered ++ msgs
    firstResult := s.firstResult || msgs.any (fun m => getStr m "type" == "result") }

theorem deliverConv_nil (s : HState) : deliverConv s [] = s := by
  cases s
  simp [deliverConv]

theorem readMessages_conv_block (env : DispatchEnv) (msgs : List JObj)
    (hconv : ∀ m ∈ msgs, isConvMsg m = true) :
    ∀ (s : HState) (rest : List TEvent), s.closedFlag = false →
      readMessages env s (msgs.map .tmsg ++ rest)
        = readMessages env (deliverConv s msgs) rest := by
  induction msgs with
  | nil =>
    intro s rest hs
    rw [deliverConv_nil]
    rfl
  | cons m ms ih =>
    intro s rest hs
    have hm : isConvMsg m = true := hconv m (by simp)
    have hms : ∀ x ∈ ms, isConvMsg x = true := fun x hx => hconv x (by simp [hx])
    rw [isConvMsg, decide_eq_true_eq] at hm
    obtain ⟨h1, h2, h3⟩ := hm
    rw [List.map_cons, List.cons_append]
    simp only [readMessages]
    rw [if_neg (by simp [hs]), if_neg h2, if_neg h1, if_neg h3]
    rw [ih hms { s with
      firstResult := s.firstResult || (getStr m "type" == "result")
      delivered := s.delivered ++ [m] } rest hs]
    congr 1
    simp [deliverConv, List.any_cons, Bool.or_assoc]

/-- C3: when the reader observes a transport error (or the transport's
message channel closing with a stored last error), it stores that error as
the terminal error, delivers exactly one synthetic `error` conversation
message as the final channel element, completes every pending control
request with the error, and every subsequently issued control request
fails immediately with the stored error. -/
theorem transport_error_terminal_behavior (env : DispatchEnv) (s : HState)
    (msgs : List JObj) (e : String)
    (hclosed : s.closedFlag = false) (herr : s.readErr = none)
    (hconv : ∀ m ∈ msgs, isConvMsg m = true) :
    (readMessages env s (msgs.map .tmsg ++ [.terr e])).readErr = some e
    ∧ (readMessages env s (msgs.map .tmsg ++ [.terr e])).delivered
        = s.delivered ++ msgs ++ [errMessage e]
    ∧ (∀ requestID pend, alookup requestID s.pending = some pend →
        alookup requestID (readMessages env s (msgs.map .tmsg ++ [.terr e])).pending
          = some { pend with perr := some (pend.perr.getD e), pdone := true })
    ∧ (∀ (request : JObj) (rnd : String) (writeErr : Option String) (wait : WaitOutcome),
        (sendControlRequest (readMessages env s (msgs.map .tmsg ++ [.terr e]))
            request rnd writeErr wait).1 = .error e)
    ∧ readMessages env s (msgs.map .tmsg ++ [.tclosed (some e)])
        = readMessages env s (msgs.map .tmsg ++ [.terr e]) := by
  rw [readMessages_conv_block env msgs hconv s [TEvent.terr e] hclosed,
    readMessages_conv_block env msgs hconv s [TEvent.tclosed (some e)] hclosed]
  have hre : (readMessages env (deliverConv s msgs) [TEvent.terr e])
      = terminalize (deliverConv s msgs) e := rfl
  rw [hre]
  refine ⟨?_, ?_, ?_, ?_, rfl⟩
  · simp [terminalize, setReadError, deliverConv, herr]
  · simp [terminalize, setReadError, deliverConv]
  · intro requestID pend hpend
    have : (terminalize (deliverConv s msgs) e).pending
        = failPendingRequests e s.pending := rfl
    rw [this, alookup_failPendingRequests, hpend]
    rfl
  · intro request rnd writeErr wait
    have hrerr : (terminalize (deliverConv s msgs) e).readErr = some e := by
      simp [terminalize, setReadError, deliverConv, herr]
    simp [sendControlRequest, hrerr]

/-- Witness for C3: after a conversation message and the transport error
"transport boom", the terminal error is stored. -/
theorem transport_error_terminal_behavior_witness :
    (readMessages ⟨none, [], []⟩
        { newQueryHandlerState 60 none with
          pending := [("req_1_aa", { perr := none, presult := none, pdone := false })] }
        ([[("type", JVal.jstr "assistant")]].map .tmsg ++ [.terr "transport boom"])).readErr
      = some "transport boom" :=
  (transport_error_terminal_behavior ⟨none, [], []⟩
    { newQueryHandlerState 60 none with
      pending := [("req_1_aa", { perr := none, presult := none, pdone := false })] }
    [[("type", JVal.jstr "assistant")]] "transport boom" rfl rfl (by decide)).1

/-! ## Claim C1: exactly one outcome per outbound control request -/

/-- C1: one `sendControlRequest` call has exactly one outcome — success
body, error-string completion, timeout, caller cancellation, or
handler-terminal failure, as classified by `classifyOutcome` over the five
kinds — the result is a success exactly when the outcome is classified
success, and after the call returns the pending map has no entry for the
generated request id while every other entry is untouched. -/
theorem sendControlRequest_exactly_one_outcome (s : HState) (request : JObj)
    (rnd : String) (writeErr : Option String) (wait : WaitOutcome)
    (hfresh : alookup (freshRequestId s rnd) s.pending = none) :
    alookup (freshRequestId s rnd)
        (sendControlRequest s request rnd writeErr wait).2.pending = none
    ∧ (∀ k, k ≠ freshRequestId s rnd →
        alookup k (sendControlRequest s request rnd writeErr wait).2.pending
          = alookup k s.pending)
    ∧ exceptOk (sendControlRequest s request rnd writeErr wait).1
        = decide (classifyOutcome s.readErr writeErr wait = OutcomeKind.success) := by
  refine ⟨?_, ?_, ?_⟩
  · cases hre : s.readErr with
    | some e => simpa [sendControlRequest, hre] using hfresh
    | none =>
      cases writeErr with
      | some e => simp [sendControlRequest, hre, alookup_aerase_self]
      | none => simp [sendControlRequest, hre, alookup_aerase_self]
  · intro k hk
    cases hre : s.readErr with
    | some e => simp [sendControlRequest, hre]
    | none =>
      cases writeErr with
      | some e =>
        simp only [sendControlRequest, hre]
        rw [alookup_aerase_ne _ _ _ hk, alookup_astore_ne _ _ _ _ hk]
      | none =>
        simp only [sendControlRequest, hre]
        rw [alookup_aerase_ne _ _ _ hk, alookup_astore_ne _ _ _ _ hk]
  · cases hre : s.readErr with
    | some e => simp [sendControlRequest, hre, classifyOutcome, exceptOk]
    | none =>
      cases writeErr with
      | some e => simp [sendControlRequest, hre, classifyOutcome, exceptOk]
      | none =>
        cases wait with
        | response oerr r =>
          cases oerr with
          | none => simp [sendControlRequest, hre, classifyOutcome, exceptOk]
          | some em => simp [sendControlRequest, hre, classifyOutcome, exceptOk]
        | failed e => simp [sendControlRequest, hre, classifyOutcome, exceptOk]
        | timedOut => simp [sendControlRequest, hre, classifyOutcome, exceptOk]
        | cancelled e => simp [sendControlRequest, hre, classifyOutcome, exceptOk]

/-- Witness for C1: a fresh handler completing a request with a success
response leaves no pending entry for its id. -/
theorem sendControlRequest_exactly_one_outcome_witness :
    alookup (freshRequestId (newQueryHandlerState 60 none) "4f2a")
      (sendControlRequest (newQueryHandlerState 60 none)
        [("subtype", JVal.jstr "interrupt")] "4f2a" none
        (.response none [("response", JVal.jobj [("ok", JVal.jbool true)])])).2.pending
      = none :=
  (sendControlRequest_exactly_one_outcome (newQueryHandlerState 60 none)
    [("subtype", JVal.jstr "interrupt")] "4f2a" none
    (.response none [("response", JVal.jobj [("ok", JVal.jbool true)])]) rfl).1

/-! ## Claim C4: can_use_tool response bodies -/

/-- C4: for an inbound `can_use_tool` request with a registered callback,
an *allow* result yields a success body whose `updatedInput` is the
callback's replacement input when provided and the request's original
input otherwise, with `updatedPermissions` present exactly when the
callback supplied updates; a *deny* result yields
`{behavior: "deny", message}` with `interrupt` present (as true) exactly
when requested. -/
theorem handleCanUseTool_response_shape (cb : CanUseToolFn) (request : JObj)
    (m0 : JObj) (hin : jget request "input" = some (.jobj m0)) :
    (∀ updatedInput updatedPermissions,
      cb (getStr request "tool_name") m0 (parsePermissionSuggestions request)
          = .ok (.allow updatedInput updatedPermissions) →
      ∃ body, handleCanUseTool (some cb) request = .ok body
        ∧ jget body "behavior" = some (JVal.jstr "allow")
        ∧ jget body "updatedInput" = some (JVal.jobj (updatedInput.getD m0))
        ∧ jget body "updatedPermissions"
            = updatedPermissions.map (fun perms =>
                JVal.jarr (perms.map (fun p => JVal.jobj p.toDict))))
    ∧ (∀ message interrupt,
      cb (getStr request "tool_name") m0 (parsePermissionSuggestions request)
          = .ok (.deny message interrupt) →
      ∃ body, handleCanUseTool (some cb) request = .ok body
        ∧ jget body "behavior" = some (JVal.jstr "deny")
        ∧ jget body "message" = some (JVal.jstr message)
        ∧ jget body "interrupt"
            = (if interrupt then some (JVal.jbool true) else none)) := by
  have hio : (getObjOpt request "input").getD [] = m0 := by
    simp [getObjOpt, hin]
  constructor
  · intro ui up hcb
    refine ⟨[("behavior", JVal.jstr "allow"), ("updatedInput", JVal.jobj (ui.getD m0))]
        ++ (match up with
            | some perms =>
              [("updatedPermissions", JVal.jarr (perms.map (fun p => JVal.jobj p.toDict)))]
            | none => []), ?_, ?_, ?_, ?_⟩
    · simp only [handleCanUseTool, hio, hcb]
      cases up <;> rfl
    · cases up <;> rfl
    · cases up <;> rfl
    · cases up <;> rfl
  · intro message interrupt hcb
    refine ⟨[("behavior", JVal.jstr "deny"), ("message", JVal.jstr message)]
        ++ (if interrupt then [("interrupt", JVal.jbool true)] else []), ?_, ?_, ?_, ?_⟩
    · simp only [handleCanUseTool, hio, hcb]
    · cases interrupt <;> rfl
    · cases interrupt <;> rfl
    · cases interrupt <;> rfl

/-- Witness for C4: an allow with replacement input and no permission
updates, and a deny with interrupt requested. -/
theorem handleCanUseTool_response_shape_witness :
    (∃ body, handleCanUseTool
        (some (fun _ _ _ =>
          Except.ok (PermissionResult.allow (some [("command", JVal.jstr "echo hello")]) none)))
        [("tool_name", JVal.jstr "Bash"), ("input", JVal.jobj [("command", JVal.jstr "ls")])]
        = .ok body
      ∧ jget body "behavior" = some (JVal.jstr "allow")
      ∧ jget body "updatedInput" = some (JVal.jobj [("command", JVal.jstr "echo hello")])
      ∧ jget body "updatedPermissions" = none)
    ∧ (∃ body, handleCanUseTool
        (some (fun _ _ _ =>
          Except.ok (PermissionResult.deny "rm commands are not allowed" true)))
        [("tool_name", JVal.jstr "Bash"), ("input", JVal.jobj [("command", JVal.jstr "rm -rf /")])]
        = .ok body
      ∧ jget body "behavior" = some (JVal.jstr "deny")
      ∧ jget body "message" = some (JVal.jstr "rm commands are not allowed")
      ∧ jget body "interrupt" = some (JVal.jbool true)) :=
  ⟨(handleCanUseTool_response_shape
      (fun _ _ _ =>
        Except.ok (PermissionResult.allow (some [("command", JVal.jstr "echo hello")]) none))
      [("tool_name", JVal.jstr "Bash"), ("input", JVal.jobj [("command", JVal.jstr "ls")])]
      [("command", JVal.jstr "ls")] rfl).1
      (some [("command", JVal.jstr "echo hello")]) none rfl,
   (handleCanUseTool_response_shape
      (fun _ _ _ =>
        Except.ok (PermissionResult.deny "rm commands are not allowed" true))
      [("tool_name", JVal.jstr "Bash"), ("input", JVal.jobj [("command", JVal.jstr "rm -rf /")])]
      [("command", JVal.jstr "rm -rf /")] rfl).2
      "rm commands are not allowed" true rfl⟩

/-! ## Claim C9: malformed inbound control requests are dropped -/

/-- C9: the dispatcher writes nothing exactly when the inbound
`control_request` envelope is malformed — its `request` is not an object
or its `request_id` is missing, non-string or empty — while a well-formed
envelope with an unknown subtype receives an error control response. -/
theorem handleControlRequest_malformed_drops (env : DispatchEnv) (msg : JObj) :
    (handleControlRequest env msg = none
      ↔ (getObjOpt msg "request" = none ∨ getStr msg "request_id" = ""))
    ∧ (∀ request, getObjOpt msg "request" = some request →
        getStr msg "request_id" ≠ "" →
        getStr request "subtype" ≠ "can_use_tool" →
        getStr request "subtype" ≠ "hook_callback" →
        getStr request "subtype" ≠ "mcp_message" →
        handleControlRequest env msg
          = some (errorControlResponse (getStr msg "request_id")
              ("unsupported control request subtype: " ++ getStr request "subtype"))) := by
  constructor
  · cases hreq : getObjOpt msg "request" with
    | none => simp [handleControlRequest, hreq]
    | some request =>
      by_cases hrid : getStr msg "request_id" = ""
      · simp [handleControlRequest, hreq, hrid]
      · simp only [handleControlRequest, hreq, if_neg hrid]
        have hER : ∀ (r : Except String JObj),
            (match r with
             | .error e => some (errorControlResponse (getStr msg "request_id") e)
             | .ok responseData =>
               some (successControlResponse (getStr msg "request_id") responseData)) ≠ none := by
          intro r
          cases r <;> simp
        exact iff_of_false (hER _)
          (fun h => h.elim (fun h1 => Option.noConfusion h1) hrid)
  · intro request hreq hrid h1 h2 h3
    simp only [handleControlRequest, hreq, if_neg hrid, if_neg h1, if_neg h2, if_neg h3]

/-- Witness for C9: a well-formed envelope with an unknown subtype gets an
error response, and the same envelope with its request id removed gets
nothing. -/
theorem handleControlRequest_malformed_drops_witness :
    handleControlRequest ⟨none, [], []⟩
        [("type", JVal.jstr "control_request"),
         ("request_id", JVal.jstr "r1"),
         ("request", JVal.jobj [("subtype", JVal.jstr "bogus")])]
      = some (errorControlResponse "r1" "unsupported control request subtype: bogus")
    ∧ handleControlRequest ⟨none, [], []⟩
        [("type", JVal.jstr "control_request"),
         ("request", JVal.jobj [("subtype", JVal.jstr "bogus")])]
      = none :=
  ⟨(handleControlRequest_malformed_drops ⟨none, [], []⟩ _).2
      [("subtype", JVal.jstr "bogus")] rfl (by decide) (by decide) (by decide) (by decide),
   ((handleControlRequest_malformed_drops ⟨none, [], []⟩ _).1).mpr (Or.inr rfl)⟩
